import Mathlib

/-!
Shallow embedding of the lxdev repository (src/lxdev/client.py and
src/lxdev/standalone_cli.py), together with theorems settling the
specification claims about it.

Python strings are modelled as Lean `String`; the Python substring test
`needle in hay`, `str.strip("\n")` and `str.replace` are implemented
structurally over `List Char` so that all definitions evaluate by `decide`.
External effects (the stdout/stderr streams of the remote process, the output of
`lxc list`, the output of the locally spawned rsync process, the result of
the container-info query) are passed in as explicit inputs, and the side
effects a function performs (commands issued, lines logged) are returned as
explicit traces.
-/

namespace Lxdev

/-- Boolean prefix test on character lists. -/
def listIsPrefixOfB : List Char → List Char → Bool
  | [], _ => true
  | _ :: _, [] => false
  | a :: as, b :: bs => a == b && listIsPrefixOfB as bs

/-- Boolean contiguous-substring test: does `needle` occur in the second
argument?  Models the Python expression `needle in hay` on strings. -/
def listContainsB (needle : List Char) : List Char → Bool
  | [] => listIsPrefixOfB needle []
  | c :: t => listIsPrefixOfB needle (c :: t) || listContainsB needle t

/-- Python `sub in s` for strings. -/
def pyIn (sub s : String) : Bool := listContainsB sub.data s.data

/-- Python `s.strip("\n")`: removes leading and trailing newline characters. -/
def stripNl (s : String) : String :=
  String.mk (((s.data.dropWhile (fun c => c == '\n')).reverse.dropWhile
    (fun c => c == '\n')).reverse)

/-- Python `s.endsWith` check, at the character-list level. -/
def strEndsWithB (s suf : String) : Bool :=
  listIsPrefixOfB suf.data.reverse s.data.reverse

/-! ## Remote Command Executor (client.py, `RemoteClient.execute_commands`) -/

/-- The `commands` argument of `execute_commands`: a single command string or
an ordered list of command strings (client.py lines 157-165). -/
inductive Commands where
  | str (s : String)
  | list (cmds : List String)

/-- The joining loop of client.py lines 160-165: `combined_cmd` starts from
the first command and appends " && " plus each later command in order. -/
def joinLoop : List String → String
  | [] => ""
  | c :: rest => rest.foldl (fun acc cmd => acc ++ " && " ++ cmd) c

/-- The compound command string actually sent to `exec_command`
(client.py lines 157-165): a plain string is used unchanged, a list is
joined by the loop above. -/
def combined_cmd : Commands → String
  | .str s => s
  | .list cmds => joinLoop cmds

/-- Spec-side description of the join: the commands in original order,
separated by " && ". -/
def joinedWithAndAnd : List String → String
  | [] => ""
  | [c] => c
  | c :: c2 :: rest => c ++ " && " ++ joinedWithAndAnd (c2 :: rest)

/-- Benign error-stream line test of client.py line 178: a line containing
"WARNING" or "Latexmk: Run number" is informational, not a failure. -/
def benign_stderr_line (line : String) : Bool :=
  pyIn "WARNING" line || pyIn "Latexmk: Run number" line

/-- The stderr classification loop of client.py lines 174-188: each line is
newline-stripped and appended to `error_lines`; a non-benign line flips
`success` to false. -/
def execStderrLoop : Bool → List String → List String → Bool × List String
  | success, errs, [] => (success, errs)
  | success, errs, l :: rest =>
    if benign_stderr_line (stripNl l) then
      execStderrLoop success (errs ++ [stripNl l]) rest
    else
      execStderrLoop false (errs ++ [stripNl l]) rest

/-- Observable result of one `execute_commands` call.  `raised_remote_exception`
records whether the call raised `myRemoteException` instead of returning. -/
structure ExecResult where
  executed : String
  success : Bool
  error_lines : List String
  result_lines : List String
  raised_remote_exception : Bool
deriving DecidableEq, Repr

/-- `RemoteClient.execute_commands` (client.py lines 149-206), with the
stderr and stdout lines of the remote process given as inputs.  The stdout lines are
captured newline-stripped in order (lines 190-197).  On lines 202-205 the
source tests `(not ignore_failures) and (not success)` but the body of that
branch is `pass` — the `raise myRemoteException(error_lines)` on line 203 is
commented out — so the call returns `result_lines` normally on every path and
`raised_remote_exception` is always false. -/
def execute_commands (commands : Commands) (ignore_failures : Bool)
    (stderrLines stdoutLines : List String) : ExecResult :=
  let combined := combined_cmd commands
  let scanned := execStderrLoop true [] stderrLines
  let result_lines := stdoutLines.map stripNl
  { executed := combined
    success := scanned.1
    error_lines := scanned.2
    result_lines := result_lines
    raised_remote_exception := false }

/-! ## Directory Synchronizer (client.py, `RemoteClient.rsync`) -/

/-- The two handled values of the `direction` argument of `rsync`
(client.py lines 120 and 127). -/
inductive Direction where
  | local_to_remote
  | remote_to_local
deriving DecidableEq, Repr

/-- One observable step of a `rsync` call, in order: a command issued through
`execute_commands`, the local transfer-tool invocation, an info log line, or
an error log line. -/
inductive RsyncEvent where
  | remoteCmd (cmd : String)
  | transfer (cmd : String)
  | logInfo (line : String)
  | logError (line : String)
deriving DecidableEq, Repr

/-- Behaviour of the local `subprocess.check_output` invocation on the rsync
command: either it produces decoded output lines, or it raises
`FileNotFoundError` (e.g. the rsync binary is missing). -/
inductive SubpResult where
  | ok (lines : List String)
  | fileNotFound
deriving DecidableEq, Repr

/-- The Python exceptions a `rsync` call can propagate to its caller. -/
inductive PyErr where
  | assertionError (msg : String)
  | nameError
deriving DecidableEq, Repr

/-- Failure-marker test of client.py line 134: a transfer-tool output line
containing "rsync error" or "failed" marks the run failed. -/
def rsync_failed_line (line : String) : Bool :=
  pyIn "rsync error" line || pyIn "failed" line

/-- The output-scanning loop of client.py lines 133-138: a marker line flips
`success` to false and is logged at error severity with the "rsync failed: "
prefix; every other line is logged as informational. -/
def rsyncScanLoop : Bool → List RsyncEvent → List String → Bool × List RsyncEvent
  | success, evs, [] => (success, evs)
  | success, evs, l :: rest =>
    if rsync_failed_line l then
      rsyncScanLoop false (evs ++ [.logError ("rsync failed: " ++ l)]) rest
    else
      rsyncScanLoop success (evs ++ [.logInfo l]) rest

/-- The transfer command string built on client.py line 125 (push) or
line 129 (pull). -/
def rsync_cmd (lxd_container_name : String) (delete : Bool) (direction : Direction)
    (rel_local_dir rel_remote_dir fake_ssh_name : String) : String :=
  match direction with
  | .local_to_remote =>
    "rsync -avPz " ++ rel_local_dir ++ "/ -e " ++ fake_ssh_name ++ " " ++
      lxd_container_name ++ ":/home/ubuntu/Documents/" ++ rel_remote_dir ++ "/" ++
      (if delete then " --delete" else "")
  | .remote_to_local =>
    "rsync -avPz -e " ++ fake_ssh_name ++ " " ++ lxd_container_name ++
      ":/home/ubuntu/Documents/" ++ rel_remote_dir ++ "/ " ++ rel_local_dir ++ "/" ++
      (if delete then " --delete" else "")

/-- The green informational log line of client.py line 124 or 128. -/
def rsync_log_str (host : String) (direction : Direction)
    (rel_local_dir rel_remote_dir : String) : String :=
  match direction with
  | .local_to_remote =>
    "Used rsync from local " ++ rel_local_dir ++ " to " ++ host ++
      ":/home/ubuntu/Documents/" ++ rel_remote_dir
  | .remote_to_local =>
    "Used rsync from " ++ host ++ ":/home/ubuntu/Documents/" ++ rel_remote_dir ++
      " to local " ++ rel_local_dir

/-- Observable result of one `rsync` call: the ordered event trace and the
exception propagated to the caller, if any. -/
structure RsyncResult where
  events : List RsyncEvent
  outcome : Option PyErr
deriving DecidableEq, Repr

/-- `RemoteClient.rsync` (client.py lines 99-147).  For a push
(`local_to_remote`) it first issues, through `execute_commands`, idempotent
`mkdir -p` commands for the remote target directory and the fixed sibling
`Outputs` directory (lines 121-122), then logs and invokes the transfer tool;
for a pull it invokes the transfer tool directly.  The transfer output is
scanned for failure markers (lines 133-138); if any was found the
`assert success` on line 140 raises `AssertionError`, which the generic
handler on lines 145-147 logs and re-raises.  If the transfer-tool invocation
raises `FileNotFoundError`, the handler on lines 142-144 logs the error and
then executes `raise e` where `e` is unbound in that scope, so the caller
receives a `NameError`. -/
def rsync (host lxd_container_name : String) (delete : Bool) (direction : Direction)
    (rel_local_dir rel_remote_dir fake_ssh_name : String) (subp : SubpResult) :
    RsyncResult :=
  let pre : List RsyncEvent :=
    match direction with
    | .local_to_remote =>
      [.remoteCmd ("mkdir -p /home/ubuntu/Documents/" ++ rel_remote_dir),
       .remoteCmd "mkdir -p /home/ubuntu/Documents/Outputs"]
    | .remote_to_local => []
  let cmd := rsync_cmd lxd_container_name delete direction rel_local_dir
    rel_remote_dir fake_ssh_name
  let head := pre ++ [.logInfo (rsync_log_str host direction rel_local_dir rel_remote_dir),
    .transfer cmd]
  match subp with
  | .fileNotFound =>
    { events := head ++ [.logError "FileNotFoundError"], outcome := some .nameError }
  | .ok lines =>
    let scanned := rsyncScanLoop true [] lines
    if scanned.1 then
      { events := head ++ scanned.2, outcome := none }
    else
      { events := head ++ scanned.2 ++
          [.logError "Unexpected error occurred: Aborting after rsync failure"]
        outcome := some (.assertionError "Aborting after rsync failure") }

/-! ## Container Lifecycle Manager (client.py, `ensure_container_is_on`) -/

/-- Matching test of client.py line 20: a `lxc list` output line is acted on
when it contains both the container name and "STOPPED" as substrings. -/
def stopped_match (container_name line : String) : Bool :=
  pyIn container_name line && pyIn "STOPPED" line

/-- The loop of client.py lines 19-23: one `lxc start` command per matching
line, in order. -/
def startLoop (container_name : String) : List String → List String
  | [] => []
  | l :: rest =>
    (if stopped_match container_name l then ["lxc start " ++ container_name] else []) ++
      startLoop container_name rest

/-- Observable result of `ensure_container_is_on`: the start commands issued
and the number of seconds slept before returning. -/
structure EnsureResult where
  start_cmds : List String
  wait_seconds : Nat
deriving DecidableEq, Repr

/-- `ensure_container_is_on` (client.py lines 16-29), with the decoded
newline-split output of `lxc list` given as input.  If any start command was
issued, the function sleeps 1 second five times (logging a countdown) before
returning; otherwise it returns immediately. -/
def ensure_container_is_on (container_name : String) (lxc_list_lines : List String) :
    EnsureResult :=
  let starts := startLoop container_name lxc_list_lines
  { start_cmds := starts
    wait_seconds := if starts.isEmpty then 0 else 5 }

/-! ## Cleanup (client.py, `RemoteClient.clean`) -/

/-- The fixed scratch directories of client.py line 209. -/
def folders_to_delete : List String := ["Outputs", "Uploads"]

/-- The listing command of client.py line 211. -/
def ls_cmd (folder : String) : String := "ls ~/Documents/" ++ folder ++ "/"

/-- The contents-removal command of client.py line 212: the glob `/*` targets
the contents of the directory, not the directory itself. -/
def rm_cmd (folder : String) : String := "rm -r ~/Documents/" ++ folder ++ "/*"

/-- A destructive command, for the purposes of the cleanup claims: one whose
text starts with "rm". -/
def isDestructiveCmd (c : String) : Bool := listIsPrefixOfB "rm".data c.data

/-- The loop of client.py lines 210-212, issuing commands in order: per
folder, the `ls` probe always, and the `rm` of the folder contents only
when the probe returned at least one line. -/
def cleanLoop (listing : String → List String) : List String → List String
  | [] => []
  | f :: rest =>
    (if (listing f).length > 0 then [ls_cmd f, rm_cmd f] else [ls_cmd f]) ++
      cleanLoop listing rest

/-- `RemoteClient.clean` (client.py lines 208-212), with `listing f` the
`result_lines` the `ls` probe of folder `f` would return.  The value is the
ordered list of commands issued through `execute_commands`. -/
def clean (listing : String → List String) : List String :=
  cleanLoop listing folders_to_delete

/-! ## Remote Session lifecycle (client.py, `RemoteClient.__enter__`/`__exit__`) -/

/-- One observable step of a `with RemoteClient(...)` block: the container
lifecycle manager run, the successful opening of the SSH connection, a remote
operation performed by the body, and the closing of the connection. -/
inductive SEvent where
  | ensureContainer
  | connectOpened
  | bodyOp
  | closed
deriving DecidableEq, Repr

/-- Behaviour of `self.client.connect` inside `__enter__`: success, or one of
the three failure classes distinguished on client.py lines 81-91. -/
inductive ConnectOutcome where
  | ok
  | authFail
  | noValidConn
  | otherErr
deriving DecidableEq, Repr

/-- Observable run of a scoped `with RemoteClient(...)` block. -/
structure SessionRun where
  trace : List SEvent
  raised : Bool
deriving DecidableEq, Repr

/-- A `with RemoteClient(...)` block (client.py lines 51-95).  `__enter__`
first runs `ensure_container_is_on` (line 54) and then opens the connection
(line 78); on a connect failure the exception is logged and re-raised, the
body never runs, and Python does not call `__exit__` for a failed
`__enter__`.  When entry succeeded, the body runs and `__exit__` closes the
connection unconditionally (line 95) on every exit path, normal or
exceptional, before any body exception propagates. -/
def withRemoteClient (c : ConnectOutcome) (bodyRaises : Bool) : SessionRun :=
  match c with
  | .ok =>
    { trace := [.ensureContainer, .connectOpened, .bodyOp, .closed]
      raised := bodyRaises }
  | _ => { trace := [.ensureContainer], raised := true }

/-! ## Standalone CLI (standalone_cli.py) -/

/-- The task names of standalone_cli.py lines 4-9. -/
def defined_tasks : List String :=
  ["check_dirs", "rsync_to_container", "rsync_from_container",
   "get_remote_working_directory"]

/-- Python `s.replace(pat, repl)` (all non-overlapping occurrences, left to
right), via fuel-indexed structural recursion over the character list. -/
def pyReplaceAux (pat repl : List Char) : Nat → List Char → List Char
  | _, [] => []
  | 0, s => s
  | Nat.succ fuel, c :: rest =>
    if listIsPrefixOfB pat (c :: rest) && !pat.isEmpty then
      repl ++ pyReplaceAux pat repl fuel (rest.drop (pat.length - 1))
    else
      c :: pyReplaceAux pat repl fuel rest

/-- Python `s.replace(pat, repl)` on strings. -/
def pyReplace (s pat repl : String) : String :=
  String.mk (pyReplaceAux pat.data repl.data s.data.length s.data)

/-- `assert_we_can_extract_lxd_name_from_hostname`
(standalone_cli.py lines 61-65): strips the "lxd_" prefix from the hostname
and validates the derived container id.  The `(info_result, info_error)` pair
is the `(result, error)` output of the container-info query
`lxc info <name>` run through `run_local_cmd`; the Local Command Runner
itself is not under src and its output is supplied as an input here.  Returns
`none` when the assertion on line 64 fails ("Error: Not Found" occurs in
`result + error`), else the derived container name. -/
def assert_we_can_extract_lxd_name_from_hostname (hostname : String)
    (info_result info_error : String) : Option String :=
  let lxd_container_name := pyReplace hostname "lxd_" ""
  if pyIn "Error: Not Found" (info_result ++ info_error) then none
  else some lxd_container_name

/-- Terminal outcome of one CLI invocation: the diagnostic print path, an
assertion failure (the process exits with a non-zero status before any
Session is opened), or reaching the `with lxdev.RemoteClient(...)` block.
Modelled from the spec: the lxdev package object the CLI constructs there
(accepting `local_working_directory` and exposing `rsync_to_container`,
`rsync_from_container` and `remote_working_directory`) is not under src; per
spec §6 the with-block opens a Session once the preconditions have passed,
recorded here as `openedSession` with the derived container name and the
parsed delete flag (`none` for the task that takes no flag). -/
inductive CliOutcome where
  | printedDiag
  | assertFailed (msg : String)
  | openedSession (lxd_container_name : String) (delete : Option Bool)
deriving DecidableEq, Repr

/-- `main` (standalone_cli.py lines 11-58), with the current working
directory and the container-info query output given as inputs.  Checks run in
source order: task-name membership (line 19), the home-tree check
`"home" in os.getcwd()` (line 28), the container-name extraction (line 30),
and — only for the two rsync tasks — the delete/keep token check
(lines 32-38); `get_remote_working_directory` reaches the with-block without
any token validation. -/
def main (task remote_hostname if_delete cwd : String)
    (info_result info_error : String) : CliOutcome :=
  if !(defined_tasks.contains task) then
    .assertFailed "task not in defined_tasks"
  else if task == "check_dirs" then
    .printedDiag
  else if task == "rsync_to_container" || task == "rsync_from_container" ||
      task == "get_remote_working_directory" then
    if !(pyIn "home" cwd) then
      .assertFailed "this function is defined for folders within a host users home directory only"
    else
      match assert_we_can_extract_lxd_name_from_hostname remote_hostname
          info_result info_error with
      | none => .assertFailed "Invalid lxd container name inferred"
      | some lxd_container_name =>
        if task == "rsync_to_container" || task == "rsync_from_container" then
          if if_delete == "delete" then
            .openedSession lxd_container_name (some true)
          else if if_delete == "keep" then
            .openedSession lxd_container_name (some false)
          else
            .assertFailed "Invalid if_delete argument passed, should be delete or keep"
        else
          .openedSession lxd_container_name none
  else
    .assertFailed "Invalid task given"

/-- Did the CLI invocation terminate in an assertion failure (non-zero exit
before any Session was opened)? -/
def CliOutcome.isFail : CliOutcome → Bool
  | .assertFailed _ => true
  | _ => false

/-! ## Helper lemmas -/

/-- Closed form of the stderr classification loop: the final flag is the
starting flag conjoined with benignness of every stripped line, and the
collected error lines are all the stripped lines, appended in order. -/
lemma execStderrLoop_spec (lines : List String) (s : Bool) (errs : List String) :
    execStderrLoop s errs lines =
      (s && lines.all (fun l => benign_stderr_line (stripNl l)),
       errs ++ lines.map stripNl) := by
  induction lines generalizing s errs with
  | nil => simp [execStderrLoop]
  | cons l rest ih =>
    cases h : benign_stderr_line (stripNl l) with
    | true => simp [execStderrLoop, h, ih]
    | false => simp [execStderrLoop, h, ih]

/-- Closed form of the transfer-output scanning loop. -/
lemma rsyncScanLoop_spec (lines : List String) (s : Bool) (evs : List RsyncEvent) :
    rsyncScanLoop s evs lines =
      (s && lines.all (fun l => !rsync_failed_line l),
       evs ++ lines.map (fun l =>
         if rsync_failed_line l then .logError ("rsync failed: " ++ l)
         else .logInfo l)) := by
  induction lines generalizing s evs with
  | nil => simp [rsyncScanLoop]
  | cons l rest ih =>
    cases h : rsync_failed_line l with
    | true => simp [rsyncScanLoop, h, ih]
    | false => simp [rsyncScanLoop, h, ih]

/-- The joining loop of the source computes the " && "-separated join. -/
lemma foldl_join_eq (c : String) (l : List String) (acc : String) :
    (c :: l).foldl (fun a cmd => a ++ " && " ++ cmd) acc =
      acc ++ " && " ++ joinedWithAndAnd (c :: l) := by
  induction l generalizing c acc with
  | nil => simp [joinedWithAndAnd]
  | cons c2 rest ih =>
    rw [List.foldl_cons, ih c2]
    simp [joinedWithAndAnd, String.append_assoc]

/-! ## Claim theorems -/

/-- C1 (code_bug evidence): a batch whose stderr holds a non-benign line with
`ignore_failures` left false is classified as failed, yet `execute_commands`
returns normally — `raised_remote_exception` is false because the
`raise myRemoteException(error_lines)` on client.py line 203 is commented out
and the failure branch executes `pass`. -/
theorem execute_commands_failure_returns_normally :
    (execute_commands (.str "false") false ["some fatal error"] []).success = false ∧
    (execute_commands (.str "false") false ["some fatal error"]
      []).raised_remote_exception = false ∧
    (execute_commands (.str "false") false ["some fatal error"] []).error_lines =
      ["some fatal error"] := by
  decide

/-- C2: the success flag of the batch is true iff every error-stream line
(newline-stripped, as the executor captures it) contains a benign marker
("WARNING" or "Latexmk: Run number"); and every line with no benign marker
makes the flag false and appears in the collected error lines. -/
theorem execute_commands_success_iff (commands : Commands) (ignore_failures : Bool)
    (stderrLines stdoutLines : List String) :
    ((execute_commands commands ignore_failures stderrLines stdoutLines).success = true ↔
      ∀ l ∈ stderrLines, benign_stderr_line (stripNl l) = true) ∧
    (∀ l ∈ stderrLines, benign_stderr_line (stripNl l) = false →
      (execute_commands commands ignore_failures stderrLines stdoutLines).success = false ∧
      stripNl l ∈
        (execute_commands commands ignore_failures stderrLines stdoutLines).error_lines) := by
  unfold execute_commands
  rw [execStderrLoop_spec]
  constructor
  · simp [List.all_eq_true]
  · intro l hl hbad
    refine ⟨?_, ?_⟩
    · simp only [Bool.true_and]
      exact List.all_eq_false.mpr ⟨l, hl, by simp [hbad]⟩
    · simpa using List.mem_map_of_mem stripNl hl

/-- Witness for C2 at a concrete failing line. -/
theorem execute_commands_success_iff_witness :
    (execute_commands (.str "x") false ["boom\n"] []).success = false ∧
    stripNl "boom\n" ∈ (execute_commands (.str "x") false ["boom\n"] []).error_lines :=
  (execute_commands_success_iff (.str "x") false ["boom\n"] []).2 "boom\n"
    (by decide) (by decide)

/-- C6: a list of commands is executed as the single compound command joining
them in their original order by " && "; a single command string is executed
unchanged; and the command `execute_commands` sends is exactly this join. -/
theorem combined_cmd_join :
    (∀ s, combined_cmd (.str s) = s) ∧
    (∀ l, combined_cmd (.list l) = joinedWithAndAnd l) ∧
    (∀ commands ignore_failures stderrLines stdoutLines,
      (execute_commands commands ignore_failures stderrLines stdoutLines).executed =
        combined_cmd commands) := by
  refine ⟨fun s => rfl, fun l => ?_, fun _ _ _ _ => rfl⟩
  match l with
  | [] => rfl
  | [c] => rfl
  | c :: c2 :: rest =>
    show (c2 :: rest).foldl (fun a cmd => a ++ " && " ++ cmd) c = _
    rw [foldl_join_eq c2 rest c]
    rfl

/-- C3: for a rsync invocation whose transfer-tool output lines carry no
"rsync error"/"failed" marker, the call returns normally; if at least one
line carries a marker, that line is logged at error severity (with the
"rsync failed: " prefix of client.py line 136) and the call raises the
synchronization-failure error (the `assert success, "Aborting after rsync
failure"` of line 140, re-raised by the generic handler). -/
theorem rsync_marker_classification (host ctn : String) (delete : Bool)
    (dir : Direction) (rl rr fssh : String) (lines : List String) :
    ((∀ l ∈ lines, rsync_failed_line l = false) →
      (rsync host ctn delete dir rl rr fssh (.ok lines)).outcome = none) ∧
    (∀ l ∈ lines, rsync_failed_line l = true →
      (rsync host ctn delete dir rl rr fssh (.ok lines)).outcome =
        some (.assertionError "Aborting after rsync failure") ∧
      RsyncEvent.logError ("rsync failed: " ++ l) ∈
        (rsync host ctn delete dir rl rr fssh (.ok lines)).events) := by
  constructor
  · intro h
    have hall : lines.all (fun l => !rsync_failed_line l) = true :=
      List.all_eq_true.mpr (fun l hl => by simp [h l hl])
    simp [rsync, rsyncScanLoop_spec, hall]
  · intro l hl hbad
    have hall : lines.all (fun l => !rsync_failed_line l) = false :=
      List.all_eq_false.mpr ⟨l, hl, by simp [hbad]⟩
    have hmem : RsyncEvent.logError ("rsync failed: " ++ l) ∈ lines.map (fun l =>
        if rsync_failed_line l then RsyncEvent.logError ("rsync failed: " ++ l)
        else RsyncEvent.logInfo l) :=
      List.mem_map.mpr ⟨l, hl, by simp [hbad]⟩
    constructor
    · simp [rsync, rsyncScanLoop_spec, hall]
    · simp only [rsync, rsyncScanLoop_spec, hall, Bool.true_and, Bool.false_eq_true,
        if_false, List.nil_append]
      simp only [List.mem_append]
      exact Or.inl (Or.inr hmem)

/-- Witness for C3: a marker line forces the assertion failure, and a
marker-free run returns normally. -/
theorem rsync_marker_classification_witness :
    (rsync "h" "c" false .local_to_remote "content" "proj" "/tmp/f"
      (.ok ["rsync error: x"])).outcome =
      some (.assertionError "Aborting after rsync failure") ∧
    (rsync "h" "c" false .local_to_remote "content" "proj" "/tmp/f"
      (.ok ["sent 1 byte"])).outcome = none :=
  ⟨((rsync_marker_classification "h" "c" false .local_to_remote "content" "proj"
      "/tmp/f" ["rsync error: x"]).2 "rsync error: x" (by decide) (by decide)).1,
   (rsync_marker_classification "h" "c" false .local_to_remote "content" "proj"
      "/tmp/f" ["sent 1 byte"]).1 (by decide)⟩

/-- C7: every push-direction rsync call issues, before the transfer runs,
exactly the two idempotent `mkdir -p` commands — one for the sync target
directory tree under /home/ubuntu/Documents and one for the fixed sibling
Outputs directory — and the transfer-tool invocation comes only after them. -/
theorem rsync_push_creates_dirs (host ctn : String) (delete : Bool)
    (rl rr fssh : String) (subp : SubpResult) :
    ((rsync host ctn delete .local_to_remote rl rr fssh subp).events.take 2 =
      [.remoteCmd ("mkdir -p /home/ubuntu/Documents/" ++ rr),
       .remoteCmd "mkdir -p /home/ubuntu/Documents/Outputs"]) ∧
    ((rsync host ctn delete .local_to_remote rl rr fssh subp).events[3]? =
      some (.transfer (rsync_cmd ctn delete .local_to_remote rl rr fssh))) := by
  cases subp with
  | fileNotFound => simp [rsync]
  | ok lines =>
    cases h : (rsyncScanLoop true [] lines).1 <;> simp [rsync, h]

/-- C10: if the local transfer-tool invocation raises `FileNotFoundError`,
the dedicated handler (client.py lines 142-144) logs the error and then
executes `raise e` with `e` unbound, so the caller receives a `NameError`
rather than the original `FileNotFoundError`. -/
theorem rsync_file_not_found_raises_name_error (host ctn : String) (delete : Bool)
    (dir : Direction) (rl rr fssh : String) :
    (rsync host ctn delete dir rl rr fssh .fileNotFound).outcome =
      some PyErr.nameError := by
  cases dir <;> rfl

/-- Closed form of the start-command loop. -/
lemma startLoop_spec (name : String) (lines : List String) :
    startLoop name lines =
      (lines.filter (fun l => stopped_match name l)).map
        (fun _ => "lxc start " ++ name) := by
  induction lines with
  | nil => rfl
  | cons l rest ih =>
    cases h : stopped_match name l <;> simp [startLoop, h, ih, List.filter_cons]

/-- C4: `ensure_container_is_on` issues exactly one start command per listed
line matching the container id with state STOPPED; it waits the fixed
5-second settle interval exactly when at least one container was started, and
returns without waiting otherwise; and on the listing `["mydev STOPPED"]` it
issues exactly one start command for mydev and waits. -/
theorem ensure_container_starts (container_name : String)
    (lxc_list_lines : List String) :
    ((ensure_container_is_on container_name lxc_list_lines).start_cmds.length =
      (lxc_list_lines.filter (fun l => stopped_match container_name l)).length) ∧
    (∀ c ∈ (ensure_container_is_on container_name lxc_list_lines).start_cmds,
      c = "lxc start " ++ container_name) ∧
    ((ensure_container_is_on container_name lxc_list_lines).wait_seconds =
      if (lxc_list_lines.filter (fun l => stopped_match container_name l)).isEmpty
      then 0 else 5) ∧
    (ensure_container_is_on "mydev" ["mydev STOPPED"] =
      { start_cmds := ["lxc start mydev"], wait_seconds := 5 }) := by
  refine ⟨?_, ?_, ?_, by decide⟩
  · simp [ensure_container_is_on, startLoop_spec]
  · intro c hc
    simp only [ensure_container_is_on, startLoop_spec] at hc
    obtain ⟨l, -, h⟩ := List.mem_map.mp hc
    exact h.symm
  · simp [ensure_container_is_on, startLoop_spec, List.isEmpty_iff]

/-- Witness for C4 at the scenario listing. -/
theorem ensure_container_starts_witness :
    "lxc start mydev" = "lxc start " ++ "mydev" :=
  (ensure_container_starts "mydev" ["mydev STOPPED"]).2.1 "lxc start mydev" (by decide)

/-- C9: the destructive commands `clean` issues are exactly one
contents-removal (`rm -r .../<folder>/*`) per fixed scratch folder whose
listing probe returned a non-empty result; every destructive command targets
the contents glob of the folder, never the folder itself; and on an already-clean
target (both probes empty) no destructive command is issued at all. -/
theorem clean_removes_only_contents (listing : String → List String) :
    ((clean listing).filter isDestructiveCmd =
      (folders_to_delete.filter (fun f => (listing f).length > 0)).map rm_cmd) ∧
    ((clean listing).all
      (fun c => !isDestructiveCmd c || strEndsWithB c "/*") = true) ∧
    ((∀ f ∈ folders_to_delete, listing f = []) →
      (clean listing).filter isDestructiveCmd = []) := by
  have key : (clean listing).filter isDestructiveCmd =
      (folders_to_delete.filter (fun f => (listing f).length > 0)).map rm_cmd := by
    by_cases hO : (listing "Outputs").length > 0 <;>
      by_cases hU : (listing "Uploads").length > 0 <;>
        simp [clean, cleanLoop, folders_to_delete, hO, hU] <;> decide
  have contents : (clean listing).all
      (fun c => !isDestructiveCmd c || strEndsWithB c "/*") = true := by
    by_cases hO : (listing "Outputs").length > 0 <;>
      by_cases hU : (listing "Uploads").length > 0 <;>
        simp [clean, cleanLoop, folders_to_delete, hO, hU] <;> decide
  refine ⟨key, contents, fun h => ?_⟩
  rw [key]
  have hempty : folders_to_delete.filter (fun f => (listing f).length > 0) = [] := by
    have h1 := h "Outputs" (by decide)
    have h2 := h "Uploads" (by decide)
    simp [folders_to_delete, h1, h2]
  simp [hempty]

/-- Witness for C9 on an already-clean target. -/
theorem clean_removes_only_contents_witness :
    (clean (fun _ => [])).filter isDestructiveCmd = [] :=
  (clean_removes_only_contents (fun _ => [])).2.2 (fun _ _ => rfl)

/-- C8: in every scoped `with RemoteClient(...)` run, the container lifecycle
manager event comes first, before any connection is opened; whenever the
connection was opened, the trace ends with the close event on every exit path
(body raising or not); and every body-performed remote operation lies
strictly between the connection opening and the close, so no remote operation
happens outside the open Session. -/
theorem session_scoped_lifecycle (c : ConnectOutcome) (bodyRaises : Bool) :
    ((withRemoteClient c bodyRaises).trace.head? = some SEvent.ensureContainer) ∧
    (SEvent.connectOpened ∈ (withRemoteClient c bodyRaises).trace →
      (withRemoteClient c bodyRaises).trace.findIdx
          (fun e => e == SEvent.ensureContainer) <
        (withRemoteClient c bodyRaises).trace.findIdx
          (fun e => e == SEvent.connectOpened)) ∧
    (SEvent.connectOpened ∈ (withRemoteClient c bodyRaises).trace →
      (withRemoteClient c bodyRaises).trace.getLast? = some SEvent.closed) ∧
    (SEvent.bodyOp ∈ (withRemoteClient c bodyRaises).trace →
      (withRemoteClient c bodyRaises).trace.findIdx
          (fun e => e == SEvent.connectOpened) <
        (withRemoteClient c bodyRaises).trace.findIdx (fun e => e == SEvent.bodyOp) ∧
      (withRemoteClient c bodyRaises).trace.findIdx (fun e => e == SEvent.bodyOp) <
        (withRemoteClient c bodyRaises).trace.findIdx (fun e => e == SEvent.closed)) := by
  cases c <;> cases bodyRaises <;> decide

/-- Witness for C8: on a successful entry the trace ends with the close. -/
theorem session_scoped_lifecycle_witness :
    (withRemoteClient ConnectOutcome.ok false).trace.getLast? = some SEvent.closed :=
  (session_scoped_lifecycle ConnectOutcome.ok false).2.2.1 (by decide)

/-- C5 counterexample: an invocation of the `get_remote_working_directory`
task with the token "bogus" — neither "delete" nor "keep" — from a
home-contained working directory, with the container found, does not
terminate before opening a Session: it reaches the with-block, because the
token check of standalone_cli.py lines 32-38 runs only for the two rsync
tasks.  (It also exhibits hostname `lxd_doc-dev` deriving container id
`doc-dev`.) -/
theorem main_token_unchecked_counterexample :
    main "get_remote_working_directory" "lxd_doc-dev" "bogus" "/home/user/project"
      "" "" = CliOutcome.openedSession "doc-dev" none := by decide

/-- C5 (amended): for the rsync and get-working-directory tasks, the CLI
terminates with a non-zero status before opening any Session exactly when the
working directory fails the home check, or the container-info query output
contains "Error: Not Found" for the container id derived by stripping "lxd_"
from the hostname, or — for the two rsync tasks only — the delete/keep token
is neither "delete" nor "keep"; and whenever a Session is opened it is for
the container id derived by stripping the "lxd_" prefix from the hostname. -/
theorem main_fail_fast_iff (task remote_hostname if_delete cwd : String)
    (info_result info_error : String)
    (htask : task = "rsync_to_container" ∨ task = "rsync_from_container" ∨
      task = "get_remote_working_directory") :
    ((main task remote_hostname if_delete cwd info_result info_error).isFail = true ↔
      (pyIn "home" cwd = false ∨
       pyIn "Error: Not Found" (info_result ++ info_error) = true ∨
       ((task = "rsync_to_container" ∨ task = "rsync_from_container") ∧
         if_delete ≠ "delete" ∧ if_delete ≠ "keep"))) ∧
    (∀ name d, main task remote_hostname if_delete cwd info_result info_error =
        CliOutcome.openedSession name d →
      name = pyReplace remote_hostname "lxd_" "") := by
  rcases htask with rfl | rfl | rfl <;>
    (simp only [main, defined_tasks, assert_we_can_extract_lxd_name_from_hostname]
     cases hhome : pyIn "home" cwd <;>
       cases hfound : pyIn "Error: Not Found" (info_result ++ info_error) <;>
         by_cases hdel : if_delete = "delete" <;>
           by_cases hkeep : if_delete = "keep" <;>
             simp_all [CliOutcome.isFail])

/-- Witness for C5 (amended): an invalid token does fail fast for the
`rsync_to_container` task. -/
theorem main_fail_fast_iff_witness :
    (main "rsync_to_container" "lxd_doc-dev" "bogus" "/home/user/project"
      "" "").isFail = true :=
  (main_fail_fast_iff "rsync_to_container" "lxd_doc-dev" "bogus" "/home/user/project"
      "" "" (Or.inl rfl)).1.mpr
    (Or.inr (Or.inr ⟨Or.inl rfl, by decide, by decide⟩))

end Lxdev
